import Mathlib

/-!
Shallow embedding of the conference-room booking backend
(`app.py` plus `service/{floor,room,organization,user,booking}.py`).

Python dictionaries are modelled as association lists that keep insertion
order, matching CPython dict semantics (assignment to an existing key updates
in place, assignment to a fresh key appends, `del` removes the entry).
`datetime` values are modelled as integer timestamps in seconds; `minute`
and `second` are the derived clock fields used by the hourly-slot check.
Calls to `datetime.now()` are modelled by an explicit `Clock` argument
carrying the wall-clock timestamp and its day-of-month field.
Uncaught Python exceptions (`KeyError`, `TypeError`) that are absorbed by the
`except Exception` boundary of each Flask handler are modelled as explicit
error results.
-/

namespace BookingSys

/-- Association-list lookup, the model of Python `d[k]` / `d.get(k)`. -/
def alookup [DecidableEq α] : List (α × β) → α → Option β
  | [], _ => none
  | (k', v') :: t, k => if k' = k then some v' else alookup t k

/-- Association-list insertion, the model of Python `d[k] = v`:
update in place when the key exists, append otherwise. -/
def ainsert [DecidableEq α] : List (α × β) → α → β → List (α × β)
  | [], k, v => [(k, v)]
  | (k', v') :: t, k, v => if k' = k then (k, v) :: t else (k', v') :: ainsert t k v

/-- Association-list deletion, the model of Python `del d[k]`. -/
def aremove [DecidableEq α] : List (α × β) → α → List (α × β)
  | [], _ => []
  | (k', v') :: t, k => if k' = k then t else (k', v') :: aremove t k

/-- The model of Python `str.lower()`: character-wise lowercasing.
(`String.toLower` denotes the same function but does not reduce in the
kernel, so the embedding uses this structurally recursive form.) -/
def pylower (s : String) : String := ⟨s.data.map Char.toLower⟩

/-- Timestamps in seconds, the model of `datetime` values (totally ordered). -/
abbrev DateTime := Int

/-- The `.minute` field of a timestamp. -/
def DateTime.minute (t : DateTime) : Int := (t / 60) % 60

/-- The `.second` field of a timestamp. -/
def DateTime.second (t : DateTime) : Int := t % 60

/-- The wall clock observed by `datetime.now()`: the timestamp itself and
its `.day` (day-of-month) field. -/
structure Clock where
  day : Int
  now : DateTime

/-- `service/room.py`: a room record built by `define_room`. -/
structure Room where
  room_number : Int
  capacity : Int
  floor_number : Int
  deriving DecidableEq, Repr

/-- `service/room.py::define_room`. -/
def define_room (room_number : Int) (capacity : Int) (floor_number : Int) : Room :=
  { room_number := room_number, capacity := capacity, floor_number := floor_number }

/-- `service/floor.py`: a floor record; `rooms` is the dict `room_number ↦ Room`. -/
structure Floor where
  floor_number : Int
  capacity : Int
  rooms : List (Int × Room)
  deriving DecidableEq, Repr

/-- `service/floor.py::define_floor`: fresh floor with capacity 100 and no rooms. -/
def define_floor (floor_number : Int) : Floor :=
  { floor_number := floor_number, capacity := 100, rooms := [] }

/-- The `used_capacity` accumulator loop inside
`service/floor.py::calculate_available_capacity`. -/
def used_capacity (rooms : List (Int × Room)) : Int :=
  rooms.foldl (fun acc kv => acc + kv.2.capacity) 0

/-- `service/floor.py::calculate_available_capacity`. -/
def calculate_available_capacity (floor : Floor) : Int :=
  floor.capacity - used_capacity floor.rooms

/-- `service/user.py`: a user record built by `define_user`. -/
structure User where
  name : String
  organization : String
  emp_id : String
  email : String
  role : String
  permissions : String
  deriving DecidableEq, Repr

/-- `service/user.py::define_user`. -/
def define_user (name organization emp_id email role permissions : String) : User :=
  { name := name, organization := organization, emp_id := emp_id, email := email,
    role := role, permissions := permissions }

/-- `service/organization.py`: an organization record built by
`define_organization`.  In the source the dict literal is
written with the two adjacent string literals `"limit" "users"`, which Python
concatenates into the single key `"limitusers"`; the record therefore carries a
`"limitusers"` entry holding the empty dict and has NO `"users"` entry.  The
possibly-absent `"users"` entry is modelled as an `Option`: `none` means the
key is missing and indexing it raises `KeyError`. -/
structure Organization where
  org_name : String
  org_email : String
  limitusers : List (String × User)
  users : Option (List (String × User))
  deriving DecidableEq, Repr

/-- `service/organization.py::define_organization`: builds the record with keys
`org_name`, `org_email` and `limitusers` (the concatenated literal); the
`users` key is absent. -/
def define_organization (org_name : String) (org_email : String) : Organization :=
  { org_name := org_name, org_email := org_email, limitusers := [], users := none }

/-- The user making a booking, the `booked_by` sub-dict (`{name, email}`). -/
structure BookedBy where
  name : String
  email : String
  deriving DecidableEq, Repr

/-- `service/booking.py`: a booking record built by `define_booking`. -/
structure Booking where
  booking_id : String
  floor_number : Int
  room_number : Int
  organization : String
  booked_by : BookedBy
  start_time : DateTime
  end_time : DateTime
  deriving DecidableEq, Repr

/-- `service/booking.py::define_booking`.  The source generates
`booking_id = str(uuid4())`; the nondeterministic fresh identifier is passed in
as the explicit argument `fresh_id`. -/
def define_booking (fresh_id : String) (floor_number room_number : Int)
    (organization : String) (booked_by : BookedBy)
    (start_time end_time : DateTime) : Booking :=
  { booking_id := fresh_id, floor_number := floor_number, room_number := room_number,
    organization := organization, booked_by := booked_by,
    start_time := start_time, end_time := end_time }

/-- `service/booking.py::is_room_available`: filter the bookings of the given
floor and room, then return `false` as soon as one of them overlaps the
queried slot (`start_time < existing.end_time and end_time > existing.start_time`). -/
def is_room_available (all_bookings : List (String × Booking))
    (floor_number room_number : Int) (start_time end_time : DateTime) : Bool :=
  let floor_bookings := (all_bookings.map Prod.snd).filter
    fun booking => booking.floor_number == floor_number && booking.room_number == room_number
  floor_bookings.all fun booking =>
    !(decide (start_time < booking.end_time) && decide (end_time > booking.start_time))

/-- `service/booking.py::list_bookings_for_organization`: keep the bookings
whose stored `organization` field, lowercased, equals the caller-supplied
`organization_name` (which the `/organizations/<org_name>/bookings` route
passes through verbatim, without lowercasing). -/
def list_bookings_for_organization (all_bookings : List (String × Booking))
    (organization_name : String) : List Booking :=
  (all_bookings.map Prod.snd).filter
    fun booking => pylower booking.organization == organization_name

/-- `service/organization.py::reset_monthly_booking_hours`: clear the tracker
when `datetime.now().day == 1`, leave it unchanged otherwise. -/
def reset_monthly_booking_hours (clock : Clock)
    (organization_booking_hours : List (String × Int)) : List (String × Int) :=
  if clock.day = 1 then [] else organization_booking_hours

/-- The distinguishable error outcomes of the Flask handlers in `app.py`.
Each constructor corresponds to one explicit `jsonify({"success": False, ...})`
return; `keyError` and `typeError` are the uncaught Python exceptions that the
surrounding `except Exception` boundary of a handler turns into a generic
400 response carrying `str(e)`. -/
inductive Err where
  /-- `f"Floor {floor_number} has not beed added yet."` in `add_room`. -/
  | floorNotYetAdded (floor_number : Int)
  /-- `f"Room number {room_number} already exists."` in `add_room`. -/
  | roomAlreadyExists (room_number : Int)
  /-- `f"Floor {floor_number} has {available_capacity} capacity available"`. -/
  | capacityUnavailable (floor_number available_capacity : Int)
  /-- `"Organization with the same name already exists."` in `add_org`. -/
  | orgAlreadyExists
  /-- `f"Organization {organization} not added"` in `add_user`. -/
  | orgNotAdded (organization : String)
  /-- `"User with the same email already exists."` in `add_user`. -/
  | emailAlreadyExists
  /-- `"User with the same emp_id already exists."` in `add_user`. -/
  | empIdAlreadyExists
  /-- `"The booking system operates in hourly slots only. ..."` in `add_boooking`. -/
  | hourlySlotsOnly
  /-- `f"Floor {floor_number} not added"` in `add_boooking`. -/
  | floorNotAdded (floor_number : Int)
  /-- `f"Room {room_number} not added"` in `add_boooking`. -/
  | roomNotAdded (room_number : Int)
  /-- `"No such user found"` in `add_boooking`. -/
  | noSuchUser
  /-- `"Monthly limit of 30 hours of booking reached."` in `add_boooking`. -/
  | monthlyLimit
  /-- `"This room is already booked"` in `add_boooking`. -/
  | roomAlreadyBooked
  /-- `"Cancellation request must be at least 15 minutes before the start time."`. -/
  | tooLateToCancel
  /-- `"Booking not found."` (404) in `del_booking`. -/
  | bookingNotFound
  /-- An uncaught `KeyError` on the given dict key, surfaced by the generic
  `except Exception` path of the handler. -/
  | keyError (key : String)
  /-- An uncaught `TypeError` (string indexed with a string), surfaced by the
  generic `except Exception` path of the handler. -/
  | typeError
  deriving DecidableEq, Repr

/-- The outcome of a mutating Flask handler. -/
inductive Res where
  /-- A 201 "added successfully" response (`add_floor`, `add_room`, `add_org`,
  `add_user`). -/
  | created
  /-- The success response of `add_boooking`, carrying the stored booking. -/
  | booked (b : Booking)
  /-- The success response of `del_booking`. -/
  | cancelled
  /-- Any failure response, 400 or 404. -/
  | err (e : Err)
  deriving DecidableEq, Repr

/-- The global in-memory store of `app.py`: the module-level dicts
`all_floors`, `all_orgs`, `all_bookings` and `organization_booking_hours`.
(`all_rooms` and `all_users` are declared in the source but never used.)
Tracker values are integers: the hourly-slot check guarantees every recorded
duration is a whole number of hours, so the Python float arithmetic is exact
and faithfully modelled by `Int`. -/
structure St where
  all_floors : List (Int × Floor)
  all_orgs : List (String × Organization)
  all_bookings : List (String × Booking)
  organization_booking_hours : List (String × Int)
  deriving DecidableEq, Repr

/-- The empty store the process starts with. -/
def initSt : St :=
  { all_floors := [], all_orgs := [], all_bookings := [], organization_booking_hours := [] }

/-- `app.py::add_floor` (`POST /floors`): next floor number is `0` for an empty
store, else the last key plus one; the floor is created by `define_floor`.
(The `except KeyError` around `define_floor` is unreachable in the typed model
since `floor_number` is always supplied.) -/
def add_floor (s : St) : St × Res :=
  let floor_number :=
    match s.all_floors.getLast? with
    | none => 0
    | some kv => kv.1 + 1
  let new_floor := define_floor floor_number
  ({ s with all_floors := ainsert s.all_floors floor_number new_floor }, .created)

/-- `app.py::add_room` (`POST /rooms`): floor must exist, room number must be
fresh on that floor, and the new capacity must fit into
`calculate_available_capacity`. (The `except KeyError` around `define_room` is
unreachable in the typed model since all three fields are supplied.) -/
def add_room (s : St) (floor_number room_number capacity : Int) : St × Res :=
  match alookup s.all_floors floor_number with
  | none => (s, .err (.floorNotYetAdded floor_number))
  | some curr_floor =>
    let available_capacity := calculate_available_capacity curr_floor
    if (alookup curr_floor.rooms room_number).isSome then
      (s, .err (.roomAlreadyExists room_number))
    else if available_capacity < capacity then
      (s, .err (.capacityUnavailable floor_number available_capacity))
    else
      let new_room := define_room room_number capacity floor_number
      let curr_floor' := { curr_floor with rooms := ainsert curr_floor.rooms room_number new_room }
      ({ s with all_floors := ainsert s.all_floors floor_number curr_floor' }, .created)

/-- `app.py::add_org` (`POST /organizations`): the name is lowercased and used
as the key; duplicate names are rejected; the record is built by
`define_organization` (and so lacks a `users` entry). -/
def add_org (s : St) (org_name org_email : String) : St × Res :=
  let name := pylower org_name
  if (alookup s.all_orgs name).isSome then
    (s, .err .orgAlreadyExists)
  else
    let new_org := define_organization name org_email
    ({ s with all_orgs := ainsert s.all_orgs name new_org }, .created)

/-- `app.py::add_user` (`POST /organizations/users`): email and emp_id are
lowercased; the organization must exist.  The source then evaluates
`is_email_unique(email, all_orgs[organization]["users"])`: indexing the
organization record with `"users"` raises `KeyError` whenever the record was
built by `define_organization` (the key is absent), which the handler boundary
turns into a generic 400.  When a `users` dict IS present, `is_email_unique`
iterates it — Python dict iteration yields the KEYS (strings), and
`user["email"]` on a string raises `TypeError` unless the dict is empty, in
which case both `all(...)` uniqueness checks are vacuously true and the user
is stored under its email. -/
def add_user (s : St) (name organization emp_id email role permissions : String) : St × Res :=
  let email := pylower email
  let emp_id := pylower emp_id
  match alookup s.all_orgs organization with
  | none => (s, .err (.orgNotAdded organization))
  | some org =>
    match org.users with
    | none => (s, .err (.keyError "users"))
    | some users_map =>
      if users_map.isEmpty then
        let new_user := define_user name organization emp_id email role permissions
        let org' := { org with users := some (ainsert users_map email new_user) }
        ({ s with all_orgs := ainsert s.all_orgs organization org' }, .created)
      else
        (s, .err .typeError)

/-- The parsed JSON body of a `POST /bookings` request; `start_time` and
`end_time` have already been parsed by `strptime` (a parse failure would be a
distinct generic 400 before any of the modelled checks). -/
structure BookingReq where
  organization : String
  floor_number : Int
  room_number : Int
  start_time : DateTime
  end_time : DateTime
  booked_by : BookedBy
  deriving DecidableEq, Repr

/-- `app.py::add_boooking` (`POST /bookings`).  In source order:
`reset_monthly_booking_hours` runs first (against the wall clock, before any
validation); then the hourly-slot check on minutes/seconds; floor existence;
room existence on the floor; the user check `data["booked_by"]["email"] not in
all_orgs[organization]["users"]` (either indexing step can raise `KeyError`:
a missing organization, or a record without a `users` entry); then the
duration is added to the organization's tracker entry (created if absent) and
the new total is compared against the 30-hour cap; then availability; on
success the booking built by `define_booking` is stored under its fresh id.
`booking_duration = (end - start).total_seconds() / 3600` is exact division
here because both endpoints sit on whole hours. -/
def add_boooking (clock : Clock) (fresh_id : String) (s : St) (d : BookingReq) : St × Res :=
  let hours0 := reset_monthly_booking_hours clock s.organization_booking_hours
  let s := { s with organization_booking_hours := hours0 }
  let start_time := d.start_time
  let end_time := d.end_time
  let organization := (pylower d.organization)
  if start_time.minute ≠ 0 ∨ start_time.second ≠ 0 ∨ end_time.minute ≠ 0 ∨ end_time.second ≠ 0 then
    (s, .err .hourlySlotsOnly)
  else
    match alookup s.all_floors d.floor_number with
    | none => (s, .err (.floorNotAdded d.floor_number))
    | some curr_floor =>
      if (alookup curr_floor.rooms d.room_number).isNone then
        (s, .err (.roomNotAdded d.room_number))
      else
        match alookup s.all_orgs organization with
        | none => (s, .err (.keyError organization))
        | some org =>
          match org.users with
          | none => (s, .err (.keyError "users"))
          | some users_map =>
            if (alookup users_map d.booked_by.email).isNone then
              (s, .err .noSuchUser)
            else
              let booking_duration := (end_time - start_time) / 3600
              let hours1 :=
                match alookup hours0 organization with
                | some h => ainsert hours0 organization (h + booking_duration)
                | none => ainsert hours0 organization booking_duration
              let s := { s with organization_booking_hours := hours1 }
              match alookup hours1 organization with
              | none => (s, .err (.keyError organization))
              | some new_total =>
                if new_total > 30 then
                  (s, .err .monthlyLimit)
                else if is_room_available s.all_bookings d.floor_number d.room_number
                    start_time end_time = false then
                  (s, .err .roomAlreadyBooked)
                else
                  let new_booking := define_booking fresh_id d.floor_number d.room_number
                    d.organization d.booked_by start_time end_time
                  ({ s with all_bookings := ainsert s.all_bookings new_booking.booking_id new_booking },
                   .booked new_booking)

/-- `app.py::del_booking` (`DELETE /organizations/<org_name>/bookings/<id>`):
the `org_name` URL parameter is never consulted.  The booking must exist, and
`datetime.now() < start_time - timedelta(minutes=15)` must hold strictly for
the hard delete to happen; otherwise the too-late 400 (store unchanged); a
missing id yields the 404 (store unchanged). -/
def del_booking (clock : Clock) (s : St) (booking_id : String) : St × Res :=
  match alookup s.all_bookings booking_id with
  | some booking =>
    if clock.now < booking.start_time - 15 * 60 then
      ({ s with all_bookings := aremove s.all_bookings booking_id }, .cancelled)
    else
      (s, .err .tooLateToCancel)
  | none => (s, .err .bookingNotFound)

/-- An entry of the result list of `search_rooms`. -/
structure RoomRef where
  floor_number : Int
  room_number : Int
  capacity : Int
  deriving DecidableEq, Repr

/-- `app.py::search_rooms` (`GET /rooms/search`).  The source binds the query
parameter `floor_number` and then iterates `for floor_number, floor_info in
all_floors.items()`, SHADOWING it: the test
`floor_number == floor_number or floor_number is None` compares the integer
loop variable with itself (and an integer is never `None`), so it is true for
every floor and the requested floor filter is never applied.  The `capacity`
filter and the availability check are applied as written. -/
def search_rooms (s : St) (floor_number : Option Int) (capacity : Option Int)
    (start_time end_time : DateTime) : List RoomRef :=
  s.all_floors.foldl (fun available_rooms fkv =>
    let loop_floor_number := fkv.1
    let rooms_on_floor := fkv.2.rooms
    rooms_on_floor.foldl (fun acc rkv =>
      let room_number := rkv.1
      let room_info := rkv.2
      if loop_floor_number = loop_floor_number then
        if capacity = none ∨ room_info.capacity ≥ capacity.getD 0 then
          if is_room_available s.all_bookings loop_floor_number room_number
              start_time end_time then
            acc ++ [{ floor_number := loop_floor_number, room_number := room_number,
                      capacity := room_info.capacity }]
          else acc
        else acc
      else acc) available_rooms) []

/-- One invocation of a mutating endpoint, with the wall clock and fresh
booking id supplied as oracle inputs where the source reads `datetime.now()`
or `uuid4()`. -/
inductive Act where
  | floorAct
  | roomAct (floor_number room_number capacity : Int)
  | orgAct (org_name org_email : String)
  | userAct (name organization emp_id email role permissions : String)
  | bookAct (clock : Clock) (fresh_id : String) (d : BookingReq)
  | cancelAct (clock : Clock) (booking_id : String)

/-- Dispatch one endpoint invocation on the store.  The read-only `GET`
endpoints never modify `all_floors`' keys and capacities, `all_orgs`,
`all_bookings` or the tracker, so they are omitted from the transition
system. -/
def step (s : St) : Act → St × Res
  | .floorAct => add_floor s
  | .roomAct fn rn cap => add_room s fn rn cap
  | .orgAct n e => add_org s n e
  | .userAct n o eid em r p => add_user s n o eid em r p
  | .bookAct c fid d => add_boooking c fid s d
  | .cancelAct c bid => del_booking c s bid

/-- The stores reachable from the empty store through the public mutating
endpoints. -/
inductive Reachable : St → Prop where
  | init : Reachable initSt
  | next (s : St) (a : Act) : Reachable s → Reachable (step s a).1

/-! ### Association-list lemmas -/

theorem alookup_mem [DecidableEq α] {l : List (α × β)} {k : α} {v : β}
    (h : alookup l k = some v) : (k, v) ∈ l := by
  induction l with
  | nil => simp [alookup] at h
  | cons hd t ih =>
    rw [alookup] at h
    by_cases hk : hd.1 = k
    · rw [if_pos hk] at h
      obtain rfl : hd.2 = v := by injection h
      subst hk
      exact List.mem_cons_self hd t
    · rw [if_neg hk] at h
      exact List.mem_cons_of_mem _ (ih h)

theorem mem_ainsert [DecidableEq α] {l : List (α × β)} {k : α} {v : β} {x : α × β}
    (h : x ∈ ainsert l k v) : x = (k, v) ∨ x ∈ l := by
  induction l with
  | nil => simpa [ainsert] using h
  | cons hd t ih =>
    rw [ainsert] at h
    by_cases hk : hd.1 = k
    · rw [if_pos hk, List.mem_cons] at h
      rcases h with h | h
      · exact Or.inl h
      · exact Or.inr (List.mem_cons_of_mem _ h)
    · rw [if_neg hk, List.mem_cons] at h
      rcases h with h | h
      · exact Or.inr (h ▸ List.mem_cons_self _ _)
      · rcases ih h with h' | h'
        · exact Or.inl h'
        · exact Or.inr (List.mem_cons_of_mem _ h')

theorem ainsert_of_alookup_none [DecidableEq α] {l : List (α × β)} {k : α}
    (h : alookup l k = none) (v : β) : ainsert l k v = l ++ [(k, v)] := by
  induction l with
  | nil => rfl
  | cons hd t ih =>
    rw [alookup] at h
    by_cases hk : hd.1 = k
    · simp [if_pos hk] at h
    · rw [ainsert, if_neg hk, ih (by simpa [if_neg hk] using h)]
      simp

theorem alookup_ainsert_self [DecidableEq α] (l : List (α × β)) (k : α) (v : β) :
    alookup (ainsert l k v) k = some v := by
  induction l with
  | nil => simp [ainsert, alookup]
  | cons hd t ih =>
    rw [ainsert]
    by_cases hk : hd.1 = k
    · rw [if_pos hk, alookup, if_pos rfl]
    · rw [if_neg hk, alookup, if_neg hk, ih]

theorem used_capacity_append (l : List (Int × Room)) (k : Int) (r : Room) :
    used_capacity (l ++ [(k, r)]) = used_capacity l + r.capacity := by
  simp [used_capacity, List.foldl_append]

/-! ### The store invariant preserved by every endpoint -/

/-- Invariant of the reachable stores: every organization record lacks its
`users` entry (the `define_organization` dict-literal bug), the bookings store
is empty, and every floor has capacity 100 with its rooms' capacities summing
to at most that. -/
def StoreInv (s : St) : Prop :=
  (∀ kv ∈ s.all_orgs, kv.2.users = none) ∧
  s.all_bookings = [] ∧
  (∀ kv ∈ s.all_floors, kv.2.capacity = 100 ∧ used_capacity kv.2.rooms ≤ kv.2.capacity)

theorem storeInv_init : StoreInv initSt := by
  refine ⟨?_, rfl, ?_⟩ <;> simp [initSt]

theorem storeInv_step (s : St) (a : Act) (h : StoreInv s) : StoreInv (step s a).1 := by
  obtain ⟨hOrgs, hBook, hFloors⟩ := h
  cases a with
  | floorAct =>
    refine ⟨hOrgs, hBook, ?_⟩
    intro kv hkv
    rcases mem_ainsert hkv with rfl | hkv'
    · exact ⟨rfl, by simp [define_floor, used_capacity]⟩
    · exact hFloors _ hkv'
  | roomAct fn rn cap =>
    simp only [step, add_room]
    split
    · exact ⟨hOrgs, hBook, hFloors⟩
    next curr_floor hlook =>
      split
      · exact ⟨hOrgs, hBook, hFloors⟩
      next hfresh =>
        split
        · exact ⟨hOrgs, hBook, hFloors⟩
        next hcap =>
          refine ⟨hOrgs, hBook, ?_⟩
          intro kv hkv
          rcases mem_ainsert hkv with rfl | hkv'
          · obtain ⟨hc100, hused⟩ := hFloors _ (alookup_mem hlook)
            have hnone : alookup curr_floor.rooms rn = none := by
              simpa [Option.not_isSome_iff_eq_none] using hfresh
            refine ⟨hc100, ?_⟩
            simp only [ainsert_of_alookup_none hnone, used_capacity_append]
            simp only [calculate_available_capacity, not_lt] at hcap
            simp only [define_room]
            omega
          · exact hFloors _ hkv'
  | orgAct n e =>
    simp only [step, add_org]
    split
    · exact ⟨hOrgs, hBook, hFloors⟩
    · refine ⟨?_, hBook, hFloors⟩
      intro kv hkv
      rcases mem_ainsert hkv with rfl | hkv'
      · rfl
      · exact hOrgs _ hkv'
  | userAct n o eid em r p =>
    simp only [step, add_user]
    rcases hlook : alookup s.all_orgs o with _ | org
    · simp only [hlook]
      exact ⟨hOrgs, hBook, hFloors⟩
    · have husers : org.users = none := hOrgs _ (alookup_mem hlook)
      simp only [hlook, husers]
      exact ⟨hOrgs, hBook, hFloors⟩
  | bookAct c fid d =>
    simp only [step, add_boooking]
    split
    · exact ⟨hOrgs, hBook, hFloors⟩
    · rcases hlook : alookup s.all_floors d.floor_number with _ | curr_floor
      · simp only [hlook]
        exact ⟨hOrgs, hBook, hFloors⟩
      · simp only [hlook]
        split
        · exact ⟨hOrgs, hBook, hFloors⟩
        · rcases horg : alookup s.all_orgs (pylower d.organization) with _ | org
          · simp only [horg]
            exact ⟨hOrgs, hBook, hFloors⟩
          · have husers : org.users = none := hOrgs _ (alookup_mem horg)
            simp only [horg, husers]
            exact ⟨hOrgs, hBook, hFloors⟩
  | cancelAct c bid =>
    simp only [step, del_booking]
    rcases hlook : alookup s.all_bookings bid with _ | booking
    · simp only [hlook]
      exact ⟨hOrgs, hBook, hFloors⟩
    · rw [hBook] at hlook
      simp [alookup] at hlook

theorem reachable_storeInv {s : St} (h : Reachable s) : StoreInv s := by
  induction h with
  | init => exact storeInv_init
  | next s a _ ih => exact storeInv_step s a ih

/-! ### Availability predicate -/

theorem is_room_available_eq_true_iff (l : List (String × Booking)) (fn rn : Int)
    (st en : DateTime) :
    is_room_available l fn rn st en = true ↔
      ∀ kv ∈ l, kv.2.floor_number = fn → kv.2.room_number = rn →
        ¬(kv.2.start_time < en ∧ kv.2.end_time > st) := by
  simp only [is_room_available, List.all_eq_true, List.mem_filter, List.mem_map,
    Bool.and_eq_true, beq_iff_eq, Bool.not_eq_true', Bool.and_eq_false_iff,
    decide_eq_false_iff_not, not_lt]
  constructor
  · rintro h kv hm hf hr ⟨hlt, hgt⟩
    rcases h kv.2 ⟨⟨kv, hm, rfl⟩, hf, hr⟩ with h' | h'
    · exact absurd hgt (not_lt.mpr h')
    · exact absurd hlt (not_lt.mpr h')
  · rintro h b ⟨⟨kv, hm, rfl⟩, hf, hr⟩
    rcases not_and_or.mp (h kv hm hf hr) with h' | h'
    · right
      exact not_lt.mp h'
    · left
      exact not_lt.mp h'

/-- C3: `is_room_available` returns `False` exactly when some stored booking
on the same floor and room overlaps the query under the half-open rule
`existing.start < query.end ∧ existing.end > query.start`; in particular a
query starting exactly at a stored booking's end (back-to-back) is reported
available. -/
theorem is_room_available_false_iff_overlap :
    (∀ (all_bookings : List (String × Booking)) (floor_number room_number : Int)
        (start_time end_time : DateTime),
      is_room_available all_bookings floor_number room_number start_time end_time = false ↔
        ∃ kv ∈ all_bookings, kv.2.floor_number = floor_number ∧
          kv.2.room_number = room_number ∧
          kv.2.start_time < end_time ∧ kv.2.end_time > start_time) ∧
    (∀ (booking_id : String) (b : Booking) (end_time : DateTime),
      is_room_available [(booking_id, b)] b.floor_number b.room_number
        b.end_time end_time = true) := by
  have hiff := is_room_available_eq_true_iff
  constructor
  · intro l fn rn st en
    rw [Bool.eq_false_iff, Ne, hiff]
    push_neg
    tauto
  · intro bid b en
    rw [hiff]
    rintro kv hm hf hr ⟨hlt, hgt⟩
    rcases List.mem_singleton.mp hm with rfl
    exact lt_irrefl _ hgt

/-! ### Behaviour of `add_boooking` once the entity checks have passed -/

/-- The whole-hour alignment condition enforced by the first validation of
`add_boooking`. -/
def hourly_aligned (d : BookingReq) : Prop :=
  d.start_time.minute = 0 ∧ d.start_time.second = 0 ∧
  d.end_time.minute = 0 ∧ d.end_time.second = 0

instance (d : BookingReq) : Decidable (hourly_aligned d) := by
  unfold hourly_aligned
  infer_instance

/-- The booking duration in hours, `(end - start).total_seconds() / 3600`
(exact for whole-hour endpoints). -/
def booking_duration (d : BookingReq) : Int :=
  (d.end_time - d.start_time) / 3600

/-- The organization's tracker total after `add_boooking`'s quota side effect:
the post-reset accumulated hours (0 when the organization has no entry) plus
this booking's duration. -/
def quota_after (clock : Clock) (s : St) (d : BookingReq) : Int :=
  (alookup (reset_monthly_booking_hours clock s.organization_booking_hours)
    (pylower d.organization)).getD 0 + booking_duration d

/-- The store after `add_boooking`'s tracker side effect. -/
def quota_bumped (clock : Clock) (s : St) (d : BookingReq) : St :=
  { s with
    organization_booking_hours :=
      ainsert (reset_monthly_booking_hours clock s.organization_booking_hours)
        (pylower d.organization) (quota_after clock s d) }

/-- After the hourly, floor, room and user checks of `add_boooking` have all
passed, the handler increments the organization's tracker entry (created at 0
when absent) by the booking duration and proceeds to the quota comparison and
the availability check on that already-updated tracker. -/
theorem add_boooking_after_user_check
    (clock : Clock) (fresh_id : String) (s : St) (d : BookingReq)
    (cf : Floor) (rm : Room) (org : Organization)
    (um : List (String × User)) (u : User)
    (hA : hourly_aligned d)
    (hFloor : alookup s.all_floors d.floor_number = some cf)
    (hRoom : alookup cf.rooms d.room_number = some rm)
    (hOrg : alookup s.all_orgs (pylower d.organization) = some org)
    (hUsers : org.users = some um)
    (hUser : alookup um d.booked_by.email = some u) :
    add_boooking clock fresh_id s d =
      (if quota_after clock s d > 30 then
        (quota_bumped clock s d, .err .monthlyLimit)
      else if is_room_available s.all_bookings d.floor_number d.room_number
          d.start_time d.end_time = false then
        (quota_bumped clock s d, .err .roomAlreadyBooked)
      else
        ({ (quota_bumped clock s d) with
            all_bookings :=
              ainsert s.all_bookings fresh_id
                (define_booking fresh_id d.floor_number d.room_number d.organization
                  d.booked_by d.start_time d.end_time) },
         .booked (define_booking fresh_id d.floor_number d.room_number d.organization
            d.booked_by d.start_time d.end_time))) := by
  obtain ⟨h1, h2, h3, h4⟩ := hA
  have hnot : ¬(d.start_time.minute ≠ 0 ∨ d.start_time.second ≠ 0 ∨
      d.end_time.minute ≠ 0 ∨ d.end_time.second ≠ 0) := by
    simp [h1, h2, h3, h4]
  simp only [add_boooking, if_neg hnot, hFloor, hRoom, Option.isNone_some,
    Bool.false_eq_true, if_false, hOrg, hUsers, hUser,
    quota_after, quota_bumped, booking_duration, define_booking]
  rcases hprev : alookup (reset_monthly_booking_hours clock s.organization_booking_hours)
      (pylower d.organization) with _ | h
  · simp only [hprev, Option.getD_none, alookup_ainsert_self, zero_add, if_false]
  · simp only [hprev, Option.getD_some, alookup_ainsert_self, if_false]

/-- `add_boooking` on a request that is not hourly-aligned fails with the
hourly-slots error, but only after `reset_monthly_booking_hours` has already
run against the tracker. -/
theorem add_boooking_misaligned (clock : Clock) (fresh_id : String) (s : St)
    (d : BookingReq) (h : ¬ hourly_aligned d) :
    add_boooking clock fresh_id s d =
      ({ s with organization_booking_hours :=
          reset_monthly_booking_hours clock s.organization_booking_hours },
       .err .hourlySlotsOnly) := by
  have hc : d.start_time.minute ≠ 0 ∨ d.start_time.second ≠ 0 ∨
      d.end_time.minute ≠ 0 ∨ d.end_time.second ≠ 0 := by
    by_contra hcon
    push_neg at hcon
    exact h ⟨hcon.1, hcon.2.1, hcon.2.2.1, hcon.2.2.2⟩
  simp only [add_boooking, if_pos hc]

/-- `add_boooking` on an aligned request whose floor does not exist fails with
the floor-not-added error. -/
theorem add_boooking_floor_missing (clock : Clock) (fresh_id : String) (s : St)
    (d : BookingReq) (hA : hourly_aligned d)
    (hFloor : alookup s.all_floors d.floor_number = none) :
    add_boooking clock fresh_id s d =
      ({ s with organization_booking_hours :=
          reset_monthly_booking_hours clock s.organization_booking_hours },
       .err (.floorNotAdded d.floor_number)) := by
  obtain ⟨h1, h2, h3, h4⟩ := hA
  have hnot : ¬(d.start_time.minute ≠ 0 ∨ d.start_time.second ≠ 0 ∨
      d.end_time.minute ≠ 0 ∨ d.end_time.second ≠ 0) := by
    simp [h1, h2, h3, h4]
  simp only [add_boooking, if_neg hnot, hFloor]

/-- `add_boooking` with an existing floor but a room number absent from that
floor fails with the room-not-added error. -/
theorem add_boooking_room_missing (clock : Clock) (fresh_id : String) (s : St)
    (d : BookingReq) (cf : Floor) (hA : hourly_aligned d)
    (hFloor : alookup s.all_floors d.floor_number = some cf)
    (hRoom : alookup cf.rooms d.room_number = none) :
    add_boooking clock fresh_id s d =
      ({ s with organization_booking_hours :=
          reset_monthly_booking_hours clock s.organization_booking_hours },
       .err (.roomNotAdded d.room_number)) := by
  obtain ⟨h1, h2, h3, h4⟩ := hA
  have hnot : ¬(d.start_time.minute ≠ 0 ∨ d.start_time.second ≠ 0 ∨
      d.end_time.minute ≠ 0 ∨ d.end_time.second ≠ 0) := by
    simp [h1, h2, h3, h4]
  simp only [add_boooking, if_neg hnot, hFloor, hRoom, Option.isNone_none, if_true]

/-- `add_boooking` reaching the user check with an organization key absent
from `all_orgs` raises `KeyError(organization)`, surfaced by the generic
exception path. -/
theorem add_boooking_org_key_error (clock : Clock) (fresh_id : String) (s : St)
    (d : BookingReq) (cf : Floor) (rm : Room) (hA : hourly_aligned d)
    (hFloor : alookup s.all_floors d.floor_number = some cf)
    (hRoom : alookup cf.rooms d.room_number = some rm)
    (hOrg : alookup s.all_orgs (pylower d.organization) = none) :
    add_boooking clock fresh_id s d =
      ({ s with organization_booking_hours :=
          reset_monthly_booking_hours clock s.organization_booking_hours },
       .err (.keyError (pylower d.organization))) := by
  obtain ⟨h1, h2, h3, h4⟩ := hA
  have hnot : ¬(d.start_time.minute ≠ 0 ∨ d.start_time.second ≠ 0 ∨
      d.end_time.minute ≠ 0 ∨ d.end_time.second ≠ 0) := by
    simp [h1, h2, h3, h4]
  simp only [add_boooking, if_neg hnot, hFloor, hRoom, Option.isNone_some,
    Bool.false_eq_true, if_false, hOrg]

/-- `add_boooking` reaching the user check with an organization record lacking
its `users` entry raises `KeyError("users")`, surfaced by the generic
exception path. -/
theorem add_boooking_users_key_error (clock : Clock) (fresh_id : String) (s : St)
    (d : BookingReq) (cf : Floor) (rm : Room) (org : Organization)
    (hA : hourly_aligned d)
    (hFloor : alookup s.all_floors d.floor_number = some cf)
    (hRoom : alookup cf.rooms d.room_number = some rm)
    (hOrg : alookup s.all_orgs (pylower d.organization) = some org)
    (hUsers : org.users = none) :
    add_boooking clock fresh_id s d =
      ({ s with organization_booking_hours :=
          reset_monthly_booking_hours clock s.organization_booking_hours },
       .err (.keyError "users")) := by
  obtain ⟨h1, h2, h3, h4⟩ := hA
  have hnot : ¬(d.start_time.minute ≠ 0 ∨ d.start_time.second ≠ 0 ∨
      d.end_time.minute ≠ 0 ∨ d.end_time.second ≠ 0) := by
    simp [h1, h2, h3, h4]
  simp only [add_boooking, if_neg hnot, hFloor, hRoom, Option.isNone_some,
    Bool.false_eq_true, if_false, hOrg, hUsers]

/-- `add_boooking` with a `users` map that does not contain the booking
user's email fails with the no-such-user error. -/
theorem add_boooking_user_missing (clock : Clock) (fresh_id : String) (s : St)
    (d : BookingReq) (cf : Floor) (rm : Room) (org : Organization)
    (um : List (String × User)) (hA : hourly_aligned d)
    (hFloor : alookup s.all_floors d.floor_number = some cf)
    (hRoom : alookup cf.rooms d.room_number = some rm)
    (hOrg : alookup s.all_orgs (pylower d.organization) = some org)
    (hUsers : org.users = some um)
    (hUser : alookup um d.booked_by.email = none) :
    add_boooking clock fresh_id s d =
      ({ s with organization_booking_hours :=
          reset_monthly_booking_hours clock s.organization_booking_hours },
       .err .noSuchUser) := by
  obtain ⟨h1, h2, h3, h4⟩ := hA
  have hnot : ¬(d.start_time.minute ≠ 0 ∨ d.start_time.second ≠ 0 ∨
      d.end_time.minute ≠ 0 ∨ d.end_time.second ≠ 0) := by
    simp [h1, h2, h3, h4]
  simp only [add_boooking, if_neg hnot, hFloor, hRoom, Option.isNone_some,
    Bool.false_eq_true, if_false, hOrg, hUsers, hUser, Option.isNone_none, if_true]

/-! ### Demonstration data (a store in which the user check can pass) -/

/-- A user record for concrete instantiations. -/
def demo_user : User := define_user "Alice" "acme" "e1" "u1@acme.com" "employee" "standard"

/-- An organization record that DOES carry a `users` entry (such a record is
never produced by `define_organization`; it exists to exercise the later
validation stages of `add_boooking` on concrete inputs). -/
def demo_org : Organization :=
  { org_name := "acme", org_email := "a@x.com", limitusers := [],
    users := some [("u1@acme.com", demo_user)] }

/-- Floor 0 with room 101 of capacity 20. -/
def demo_floor : Floor :=
  { floor_number := 0, capacity := 100, rooms := [(101, define_room 101 20 0)] }

/-- A store holding `demo_floor` and `demo_org`, no bookings, empty tracker. -/
def demo_store : St :=
  { all_floors := [(0, demo_floor)], all_orgs := [("acme", demo_org)],
    all_bookings := [], organization_booking_hours := [] }

/-- A booking request for floor 0, room 101,
2024-03-01 09:00:00 – 10:00:00 (timestamps 1709283600 and 1709287200). -/
def demo_req : BookingReq :=
  { organization := "acme", floor_number := 0, room_number := 101,
    start_time := 1709283600, end_time := 1709287200,
    booked_by := { name := "Alice", email := "u1@acme.com" } }

/-- A mid-month wall clock (day 15), so the monthly reset does not fire. -/
def demo_clock : Clock := { day := 15, now := 1709200000 }

/-! ### Claim C4 -/

/-- C4: in `add_boooking`, once the time, floor, room and user checks have
passed, the booking's duration in hours is added to the organization's
accumulated (post-reset) monthly hours, defaulting to 0 when the organization
has no tracker entry; the request is rejected with the monthly-limit error if
and only if the new total strictly exceeds 30 (a total of exactly 30 passes);
and because the increment is a side effect of the check itself, the resulting
store keeps the increased total even when the booking is afterwards rejected
for room unavailability. -/
theorem add_boooking_quota_side_effect
    (clock : Clock) (fresh_id : String) (s : St) (d : BookingReq)
    (cf : Floor) (rm : Room) (org : Organization)
    (um : List (String × User)) (u : User)
    (hA : hourly_aligned d)
    (hFloor : alookup s.all_floors d.floor_number = some cf)
    (hRoom : alookup cf.rooms d.room_number = some rm)
    (hOrg : alookup s.all_orgs (pylower d.organization) = some org)
    (hUsers : org.users = some um)
    (hUser : alookup um d.booked_by.email = some u) :
    (add_boooking clock fresh_id s d).1.organization_booking_hours =
      ainsert (reset_monthly_booking_hours clock s.organization_booking_hours)
        (pylower d.organization) (quota_after clock s d) ∧
    ((add_boooking clock fresh_id s d).2 = .err .monthlyLimit ↔
      quota_after clock s d > 30) ∧
    (quota_after clock s d ≤ 30 →
      is_room_available s.all_bookings d.floor_number d.room_number
        d.start_time d.end_time = false →
      (add_boooking clock fresh_id s d).2 = .err .roomAlreadyBooked ∧
      (add_boooking clock fresh_id s d).1.organization_booking_hours =
        ainsert (reset_monthly_booking_hours clock s.organization_booking_hours)
          (pylower d.organization) (quota_after clock s d)) := by
  rw [add_boooking_after_user_check clock fresh_id s d cf rm org um u
    hA hFloor hRoom hOrg hUsers hUser]
  by_cases h30 : quota_after clock s d > 30
  · rw [if_pos h30]
    exact ⟨rfl, ⟨fun _ => h30, fun _ => rfl⟩, fun hle _ => absurd h30 (not_lt.mpr hle)⟩
  · rw [if_neg h30]
    by_cases hav : is_room_available s.all_bookings d.floor_number d.room_number
        d.start_time d.end_time = false
    · rw [if_pos hav]
      refine ⟨rfl, ⟨fun hEq => by simp at hEq, fun h' => absurd h' h30⟩,
        fun _ _ => ⟨rfl, rfl⟩⟩
    · rw [if_neg hav]
      exact ⟨rfl, ⟨fun hEq => by simp at hEq, fun h' => absurd h' h30⟩,
        fun _ h' => absurd h' hav⟩

/-- Concrete instantiation of `add_boooking_quota_side_effect` on
`demo_store` / `demo_req`. -/
theorem add_boooking_quota_side_effect_witness :
    (add_boooking demo_clock "fresh-1" demo_store demo_req).1.organization_booking_hours =
      ainsert (reset_monthly_booking_hours demo_clock demo_store.organization_booking_hours)
        (pylower demo_req.organization) (quota_after demo_clock demo_store demo_req) ∧
    ((add_boooking demo_clock "fresh-1" demo_store demo_req).2 = .err .monthlyLimit ↔
      quota_after demo_clock demo_store demo_req > 30) ∧
    (quota_after demo_clock demo_store demo_req ≤ 30 →
      is_room_available demo_store.all_bookings demo_req.floor_number demo_req.room_number
        demo_req.start_time demo_req.end_time = false →
      (add_boooking demo_clock "fresh-1" demo_store demo_req).2 = .err .roomAlreadyBooked ∧
      (add_boooking demo_clock "fresh-1" demo_store demo_req).1.organization_booking_hours =
        ainsert (reset_monthly_booking_hours demo_clock demo_store.organization_booking_hours)
          (pylower demo_req.organization) (quota_after demo_clock demo_store demo_req)) :=
  add_boooking_quota_side_effect demo_clock "fresh-1" demo_store demo_req
    demo_floor (define_room 101 20 0) demo_org [("u1@acme.com", demo_user)] demo_user
    (by decide) (by decide) (by decide) (by decide) (by decide) (by decide)

/-! ### Claim C8 -/

/-- C8: `add_boooking` performs its validations in the fixed order
hourly-alignment, floor existence, room existence, user existence in the
named organization, quota, availability, and returns the error of the first
failing check regardless of later checks.  In particular a request with
nonzero minutes is rejected with the hourly-slots error even when its floor
does not exist, and a whole-hour request naming a nonexistent floor (and
room) is rejected with the floor-not-added error. -/
theorem add_boooking_validation_order
    (clock : Clock) (fresh_id : String) (s : St) (d : BookingReq) :
    (¬ hourly_aligned d →
      (add_boooking clock fresh_id s d).2 = .err .hourlySlotsOnly) ∧
    (hourly_aligned d → alookup s.all_floors d.floor_number = none →
      (add_boooking clock fresh_id s d).2 = .err (.floorNotAdded d.floor_number)) ∧
    (∀ cf, hourly_aligned d → alookup s.all_floors d.floor_number = some cf →
      alookup cf.rooms d.room_number = none →
      (add_boooking clock fresh_id s d).2 = .err (.roomNotAdded d.room_number)) ∧
    (∀ cf rm org um, hourly_aligned d →
      alookup s.all_floors d.floor_number = some cf →
      alookup cf.rooms d.room_number = some rm →
      alookup s.all_orgs (pylower d.organization) = some org →
      org.users = some um →
      alookup um d.booked_by.email = none →
      (add_boooking clock fresh_id s d).2 = .err .noSuchUser) ∧
    (∀ cf rm org um u, hourly_aligned d →
      alookup s.all_floors d.floor_number = some cf →
      alookup cf.rooms d.room_number = some rm →
      alookup s.all_orgs (pylower d.organization) = some org →
      org.users = some um →
      alookup um d.booked_by.email = some u →
      quota_after clock s d > 30 →
      (add_boooking clock fresh_id s d).2 = .err .monthlyLimit) ∧
    (∀ cf rm org um u, hourly_aligned d →
      alookup s.all_floors d.floor_number = some cf →
      alookup cf.rooms d.room_number = some rm →
      alookup s.all_orgs (pylower d.organization) = some org →
      org.users = some um →
      alookup um d.booked_by.email = some u →
      quota_after clock s d ≤ 30 →
      is_room_available s.all_bookings d.floor_number d.room_number
        d.start_time d.end_time = false →
      (add_boooking clock fresh_id s d).2 = .err .roomAlreadyBooked) := by
  refine ⟨?_, ?_, ?_, ?_, ?_, ?_⟩
  · intro h
    rw [add_boooking_misaligned clock fresh_id s d h]
  · intro hA hFloor
    rw [add_boooking_floor_missing clock fresh_id s d hA hFloor]
  · intro cf hA hFloor hRoom
    rw [add_boooking_room_missing clock fresh_id s d cf hA hFloor hRoom]
  · intro cf rm org um hA hFloor hRoom hOrg hUsers hUser
    rw [add_boooking_user_missing clock fresh_id s d cf rm org um hA hFloor hRoom
      hOrg hUsers hUser]
  · intro cf rm org um u hA hFloor hRoom hOrg hUsers hUser h30
    rw [add_boooking_after_user_check clock fresh_id s d cf rm org um u hA hFloor
      hRoom hOrg hUsers hUser, if_pos h30]
  · intro cf rm org um u hA hFloor hRoom hOrg hUsers hUser h30 hav
    rw [add_boooking_after_user_check clock fresh_id s d cf rm org um u hA hFloor
      hRoom hOrg hUsers hUser, if_neg (not_lt.mpr h30), if_pos hav]

/-- Concrete instantiation of `add_boooking_validation_order`: a 09:30 start
with a nonexistent floor yields the hourly-slots error, and a whole-hour
request naming a nonexistent floor (and room) yields the floor-not-added
error. -/
theorem add_boooking_validation_order_witness :
    (add_boooking demo_clock "fresh-2" initSt
      { demo_req with start_time := 1709285400 }).2 = .err .hourlySlotsOnly ∧
    (add_boooking demo_clock "fresh-2" initSt demo_req).2 =
      .err (.floorNotAdded 0) :=
  ⟨(add_boooking_validation_order demo_clock "fresh-2" initSt
      { demo_req with start_time := 1709285400 }).1 (by decide),
   (add_boooking_validation_order demo_clock "fresh-2" initSt demo_req).2.1
      (by decide) (by decide)⟩

/-! ### Claim C9 -/

/-- C9: on every `add_boooking` attempt the tracker reset runs first, before
any validation of the request: `reset_monthly_booking_hours` clears all
accumulated hours exactly when the wall-clock day-of-month is 1, leaves the
tracker unchanged on every other day, and is idempotent under the same clock;
and even a request failing the very first (hourly-slot) validation leaves the
tracker in its reset state. -/
theorem reset_monthly_booking_hours_spec :
    (∀ (clock : Clock) (t : List (String × Int)), clock.day = 1 →
      reset_monthly_booking_hours clock t = []) ∧
    (∀ (clock : Clock) (t : List (String × Int)), clock.day ≠ 1 →
      reset_monthly_booking_hours clock t = t) ∧
    (∀ (clock : Clock) (t : List (String × Int)),
      reset_monthly_booking_hours clock (reset_monthly_booking_hours clock t) =
        reset_monthly_booking_hours clock t) ∧
    (∀ (clock : Clock) (fresh_id : String) (s : St) (d : BookingReq),
      ¬ hourly_aligned d →
      (add_boooking clock fresh_id s d).1.organization_booking_hours =
        reset_monthly_booking_hours clock s.organization_booking_hours) := by
  refine ⟨?_, ?_, ?_, ?_⟩
  · intro clock t h
    simp [reset_monthly_booking_hours, h]
  · intro clock t h
    simp [reset_monthly_booking_hours, h]
  · intro clock t
    by_cases h : clock.day = 1 <;> simp [reset_monthly_booking_hours, h]
  · intro clock fresh_id s d h
    rw [add_boooking_misaligned clock fresh_id s d h]

/-- Concrete instantiation of `reset_monthly_booking_hours_spec`: a day-1
clock clears a nonempty tracker, a day-15 clock leaves it unchanged, the
reset is idempotent, and a misaligned request on day 1 leaves the tracker
cleared. -/
theorem reset_monthly_booking_hours_spec_witness :
    reset_monthly_booking_hours { day := 1, now := 0 } [("acme", 7)] = [] ∧
    reset_monthly_booking_hours { day := 15, now := 0 } [("acme", 7)] = [("acme", 7)] ∧
    reset_monthly_booking_hours { day := 1, now := 0 }
      (reset_monthly_booking_hours { day := 1, now := 0 } [("acme", 7)]) =
      reset_monthly_booking_hours { day := 1, now := 0 } [("acme", 7)] ∧
    (add_boooking { day := 1, now := 0 } "fresh-3"
        { demo_store with organization_booking_hours := [("acme", 7)] }
        { demo_req with start_time := 1709285400 }).1.organization_booking_hours =
      reset_monthly_booking_hours { day := 1, now := 0 } [("acme", 7)] :=
  ⟨reset_monthly_booking_hours_spec.1 { day := 1, now := 0 } [("acme", 7)] rfl,
   reset_monthly_booking_hours_spec.2.1 { day := 15, now := 0 } [("acme", 7)] (by decide),
   reset_monthly_booking_hours_spec.2.2.1 { day := 1, now := 0 } [("acme", 7)],
   reset_monthly_booking_hours_spec.2.2.2 { day := 1, now := 0 } "fresh-3"
     { demo_store with organization_booking_hours := [("acme", 7)] }
     { demo_req with start_time := 1709285400 } (by decide)⟩

/-! ### Claim C5 -/

/-- C5: `del_booking` removes the booking and reports success exactly when
the booking exists and the wall clock is strictly earlier than the booking's
start time minus 15 minutes; a cancellation attempted exactly 15 minutes
before the start is rejected as too late with the store unchanged; an unknown
`booking_id` yields the not-found error with the store unchanged. -/
theorem del_booking_cancellation_window (clock : Clock) (s : St) (booking_id : String) :
    ((del_booking clock s booking_id).2 = .cancelled ↔
      ∃ b, alookup s.all_bookings booking_id = some b ∧
        clock.now < b.start_time - 15 * 60) ∧
    (∀ b, alookup s.all_bookings booking_id = some b →
      clock.now < b.start_time - 15 * 60 →
      del_booking clock s booking_id =
        ({ s with all_bookings := aremove s.all_bookings booking_id }, .cancelled)) ∧
    (∀ b, alookup s.all_bookings booking_id = some b →
      clock.now = b.start_time - 15 * 60 →
      del_booking clock s booking_id = (s, .err .tooLateToCancel)) ∧
    (alookup s.all_bookings booking_id = none →
      del_booking clock s booking_id = (s, .err .bookingNotFound)) := by
  rcases hlook : alookup s.all_bookings booking_id with _ | b
  · refine ⟨?_, ?_, ?_, fun _ => ?_⟩
    · simp only [del_booking, hlook]
      constructor
      · intro h
        simp at h
      · rintro ⟨b, hb, -⟩
        exact Option.noConfusion hb
    · intro b hb
      exact Option.noConfusion hb
    · intro b hb
      exact Option.noConfusion hb
    · simp only [del_booking, hlook]
  · by_cases ht : clock.now < b.start_time - 15 * 60
    · refine ⟨?_, ?_, ?_, ?_⟩
      · simp only [del_booking, hlook, if_pos ht]
        exact ⟨fun _ => ⟨b, rfl, ht⟩, fun _ => trivial⟩
      · intro b' hb' ht'
        obtain rfl := Option.some.inj hb'
        simp only [del_booking, hlook, if_pos ht]
      · intro b' hb' heq
        obtain rfl := Option.some.inj hb'
        rw [heq] at ht
        exact absurd ht (lt_irrefl _)
      · intro hnone
        exact Option.noConfusion hnone
    · refine ⟨?_, ?_, ?_, ?_⟩
      · simp only [del_booking, hlook, if_neg ht]
        constructor
        · intro h
          simp at h
        · rintro ⟨b', hb', ht'⟩
          obtain rfl := Option.some.inj hb'
          exact absurd ht' ht
      · intro b' hb' ht'
        obtain rfl := Option.some.inj hb'
        exact absurd ht' ht
      · intro b' hb' heq
        obtain rfl := Option.some.inj hb'
        simp only [del_booking, hlook, if_neg ht]
      · intro hnone
        exact Option.noConfusion hnone

/-- A stored booking starting 2024-03-01 09:00:00 (timestamp 1709283600). -/
def demo_booking : Booking :=
  define_booking "b1" 0 101 "acme" { name := "Alice", email := "u1@acme.com" }
    1709283600 1709287200

/-- A store holding just `demo_booking`. -/
def demo_booked_store : St :=
  { initSt with all_bookings := [("b1", demo_booking)] }

/-- Concrete instantiation of `del_booking_cancellation_window`: cancelling
15 minutes + 1 second before the start succeeds and removes the booking,
cancelling exactly 15 minutes before is rejected, and an unknown id is
reported not found. -/
theorem del_booking_cancellation_window_witness :
    del_booking { day := 15, now := 1709282699 } demo_booked_store "b1" =
      ({ demo_booked_store with
          all_bookings := aremove demo_booked_store.all_bookings "b1" }, .cancelled) ∧
    del_booking { day := 15, now := 1709282700 } demo_booked_store "b1" =
      (demo_booked_store, .err .tooLateToCancel) ∧
    del_booking { day := 15, now := 1709282699 } demo_booked_store "zz" =
      (demo_booked_store, .err .bookingNotFound) :=
  ⟨(del_booking_cancellation_window { day := 15, now := 1709282699 }
      demo_booked_store "b1").2.1 demo_booking (by decide) (by decide),
   (del_booking_cancellation_window { day := 15, now := 1709282700 }
      demo_booked_store "b1").2.2.1 demo_booking (by decide) (by decide),
   (del_booking_cancellation_window { day := 15, now := 1709282699 }
      demo_booked_store "zz").2.2.2 (by decide)⟩

/-! ### Claim C7 -/

/-- C7: in every reachable store each floor's rooms' capacities sum to at
most the floor's capacity of 100, and `add_room` rejects the request without
modifying the store both when the requested room number already exists on the
floor and when the new room's capacity strictly exceeds the floor's remaining
available capacity. -/
theorem add_room_capacity_invariant (s : St) (hs : Reachable s) :
    (∀ kv ∈ s.all_floors,
      used_capacity kv.2.rooms ≤ kv.2.capacity ∧ kv.2.capacity = 100) ∧
    (∀ (floor_number room_number capacity : Int) (cf : Floor),
      alookup s.all_floors floor_number = some cf →
      ((alookup cf.rooms room_number).isSome →
        add_room s floor_number room_number capacity =
          (s, .err (.roomAlreadyExists room_number))) ∧
      (alookup cf.rooms room_number = none →
        calculate_available_capacity cf < capacity →
        add_room s floor_number room_number capacity =
          (s, .err (.capacityUnavailable floor_number
            (calculate_available_capacity cf))))) := by
  obtain ⟨-, -, hFloors⟩ := reachable_storeInv hs
  refine ⟨fun kv hkv => ⟨(hFloors kv hkv).2, (hFloors kv hkv).1⟩, ?_⟩
  intro fn rn cap cf hcf
  constructor
  · intro hex
    simp only [add_room, hcf, if_pos hex]
  · intro hnone hlt
    simp only [add_room, hcf, hnone, Option.isSome_none, Bool.false_eq_true,
      if_false, if_pos hlt]

/-- Concrete instantiation of `add_room_capacity_invariant` at the reachable
store holding one fresh floor: its capacity sum is within bounds and a
201-capacity room is rejected. -/
theorem add_room_capacity_invariant_witness :
    (used_capacity (define_floor 0).rooms ≤ (define_floor 0).capacity ∧
      (define_floor 0).capacity = 100) ∧
    add_room (step initSt Act.floorAct).1 0 101 200 =
      ((step initSt Act.floorAct).1,
        .err (.capacityUnavailable 0 (calculate_available_capacity (define_floor 0)))) := by
  have h := add_room_capacity_invariant (step initSt Act.floorAct).1
    (Reachable.next initSt Act.floorAct Reachable.init)
  exact ⟨h.1 (0, define_floor 0) (by decide),
    (h.2 0 101 200 (define_floor 0) (by decide)).2 (by decide) (by decide)⟩

/-! ### Claim C2 -/

/-- C2: in every reachable store, every organization record created through
`add_org` lacks its `users` map (the `"limit" "users"` adjacent-literal
concatenation in `define_organization` produces a `limitusers` key instead),
so every `add_user` call naming an existing organization fails through the
generic caught-exception path (`KeyError("users")`) with the store unchanged,
every `add_boooking` call that survives the hourly, floor and room checks
fails through the generic caught-exception path as well, every organization's
user set stays empty, and the bookings store stays empty forever. -/
theorem orgs_lack_users_and_bookings_stay_empty (s : St) (hs : Reachable s) :
    (∀ kv ∈ s.all_orgs, kv.2.users = none) ∧
    s.all_bookings = [] ∧
    (∀ (name organization emp_id email role permissions : String) (org : Organization),
      alookup s.all_orgs organization = some org →
      add_user s name organization emp_id email role permissions =
        (s, .err (.keyError "users"))) ∧
    (∀ (clock : Clock) (fresh_id : String) (d : BookingReq) (cf : Floor) (rm : Room),
      hourly_aligned d →
      alookup s.all_floors d.floor_number = some cf →
      alookup cf.rooms d.room_number = some rm →
      ((add_boooking clock fresh_id s d).2 = .err (.keyError "users") ∨
        (add_boooking clock fresh_id s d).2 = .err (.keyError (pylower d.organization))) ∧
      (add_boooking clock fresh_id s d).1.all_bookings = []) := by
  obtain ⟨hOrgs, hBook, -⟩ := reachable_storeInv hs
  refine ⟨hOrgs, hBook, ?_, ?_⟩
  · intro n o eid em r p org horg
    have husers : org.users = none := hOrgs _ (alookup_mem horg)
    simp only [add_user, horg, husers]
  · intro clock fid d cf rm hA hFloor hRoom
    rcases horg : alookup s.all_orgs (pylower d.organization) with _ | org
    · rw [add_boooking_org_key_error clock fid s d cf rm hA hFloor hRoom horg]
      exact ⟨Or.inr rfl, hBook⟩
    · have husers : org.users = none := hOrgs _ (alookup_mem horg)
      rw [add_boooking_users_key_error clock fid s d cf rm org hA hFloor hRoom
        horg husers]
      exact ⟨Or.inl rfl, hBook⟩

/-- Concrete instantiation of `orgs_lack_users_and_bookings_stay_empty`: in
the reachable store holding the organization "acme", registering a user fails
with the generic `KeyError("users")` response and the store is unchanged. -/
theorem orgs_lack_users_and_bookings_stay_empty_witness :
    add_user (step initSt (Act.orgAct "acme" "a@x.com")).1
        "Alice" "acme" "e1" "u1@acme.com" "employee" "standard" =
      ((step initSt (Act.orgAct "acme" "a@x.com")).1, .err (.keyError "users")) ∧
    (step initSt (Act.orgAct "acme" "a@x.com")).1.all_bookings = [] := by
  have h := orgs_lack_users_and_bookings_stay_empty
    (step initSt (Act.orgAct "acme" "a@x.com")).1
    (Reachable.next initSt (Act.orgAct "acme" "a@x.com") Reachable.init)
  exact ⟨h.2.2.1 "Alice" "acme" "e1" "u1@acme.com" "employee" "standard"
    (define_organization (pylower "acme") "a@x.com") (by decide), h.2.1⟩

/-! ### Claim C1 -/

/-- The store after the scenario prefix: `add_floor` (floor 0), `add_room`
101 with capacity 20 on floor 0, `add_org` "acme" with email "a@x.com". -/
def scenario_store : St :=
  (add_org (add_room (add_floor initSt).1 0 101 20).1 "acme" "a@x.com").1

/-- C1 (code-bug evidence): the scenario's floor, room and organization steps
succeed, but registering user "e1"/"u1@acme.com" in "acme" fails through the
generic exception path with `KeyError("users")` — `define_organization` never
creates the `users` entry — leaving the store unchanged; the 09:00–10:00
booking attempt then fails the same way, so no booking (and no generated
booking id) is ever stored; and a 09:30–10:30 request is rejected by the
hourly-slot check rather than as unavailable. -/
theorem scenario_fails_at_add_user :
    (add_floor initSt).2 = .created ∧
    (add_room (add_floor initSt).1 0 101 20).2 = .created ∧
    (add_org (add_room (add_floor initSt).1 0 101 20).1 "acme" "a@x.com").2 = .created ∧
    add_user scenario_store "Alice" "acme" "e1" "u1@acme.com" "employee" "standard" =
      (scenario_store, .err (.keyError "users")) ∧
    (add_boooking demo_clock "fresh-0" scenario_store demo_req).2 =
      .err (.keyError "users") ∧
    (add_boooking demo_clock "fresh-0" scenario_store demo_req).1.all_bookings = [] ∧
    (add_boooking demo_clock "fresh-0" scenario_store
      { demo_req with start_time := 1709285400, end_time := 1709289000 }).2 =
      .err .hourlySlotsOnly := by
  decide

/-! ### Claim C6 -/

/-- A store with one room on each of two floors, both free. -/
def two_floor_store : St :=
  { all_floors :=
      [(0, { floor_number := 0, capacity := 100, rooms := [(101, define_room 101 20 0)] }),
       (1, { floor_number := 1, capacity := 100, rooms := [(201, define_room 201 30 1)] })],
    all_orgs := [], all_bookings := [], organization_booking_hours := [] }

/-- C6 (code-bug evidence): `search_rooms` queried with the floor filter
`some 0` still returns the room on floor 1: the loop variable shadows the
query parameter, so the requested floor filter is never applied (the rooms on
the requested floor that pass the capacity and availability checks are
included — but so is every other floor's). -/
theorem search_rooms_ignores_floor_filter :
    search_rooms two_floor_store (some 0) none 1709283600 1709287200 =
      [{ floor_number := 0, room_number := 101, capacity := 20 },
       { floor_number := 1, room_number := 201, capacity := 30 }] ∧
    { floor_number := (1 : Int), room_number := 201, capacity := 30 } ∈
      search_rooms two_floor_store (some 0) none 1709283600 1709287200 ∧
    (1 : Int) ≠ 0 := by
  decide

/-! ### Claim C10 -/

/-- A booking stored with the mixed-case organization string "Acme":
`add_boooking` lowercases only a local variable, and `define_booking` stores
`data["organization"]` verbatim. -/
def booking_mixed_case : Booking :=
  define_booking "b1" 0 101 "Acme" { name := "Alice", email := "u1@acme.com" }
    1709283600 1709287200

/-- C10 counterexample: the claim says a booking stored with organization
"Acme" is returned for each of the queries "ACME", "acme" and "Acme"; in fact
the stored field is lowercased while the query string is compared verbatim,
so the queries "ACME" and "Acme" return nothing. -/
theorem list_bookings_not_case_insensitive :
    booking_mixed_case.organization = "Acme" ∧
    list_bookings_for_organization [("b1", booking_mixed_case)] "ACME" = [] ∧
    list_bookings_for_organization [("b1", booking_mixed_case)] "Acme" = [] ∧
    booking_mixed_case ∉ list_bookings_for_organization
      [("b1", booking_mixed_case)] "ACME" := by
  decide

/-- C10 (amended): `list_bookings_for_organization` returns exactly the
stored bookings whose organization field, lowercased, equals the
caller-supplied `org_name` verbatim; a booking stored as "Acme" is returned
for the query "acme" but not for "ACME" or "Acme". -/
theorem list_bookings_matches_lowercased_stored_org :
    (∀ (all_bookings : List (String × Booking)) (organization_name : String) (b : Booking),
      b ∈ list_bookings_for_organization all_bookings organization_name ↔
        (∃ kv ∈ all_bookings, kv.2 = b) ∧ pylower b.organization = organization_name) ∧
    list_bookings_for_organization [("b1", booking_mixed_case)] "acme" =
      [booking_mixed_case] ∧
    list_bookings_for_organization [("b1", booking_mixed_case)] "ACME" = [] ∧
    list_bookings_for_organization [("b1", booking_mixed_case)] "Acme" = [] := by
  refine ⟨?_, by decide, by decide, by decide⟩
  intro l q b
  simp only [list_bookings_for_organization, List.mem_filter, List.mem_map, beq_iff_eq]

end BookingSys
